import Mathlib

/-!
Verification of the document-extraction service in `main.py` (Intelbras PDF
Scraper API). The HTML tree, the BeautifulSoup query operations the code uses
(`find`, `select`, `strings`, attribute lookup), the `extract_docs` helper, the
two fallback loops and the `/scrape` handler are embedded below as executable
Lean definitions, translated directly from the source.
-/

namespace ConsultaDocumentos

/-- An HTML node as delivered by the tree builder (BeautifulSoup with
`html.parser`): either a text node or an element with a tag name, an
attribute list and a list of children, in document order. -/
inductive Node : Type where
  | text : String → Node
  | elem : String → List (String × String) → List Node → Node

/-- Python's `str.strip()` (and the whitespace normalization BeautifulSoup
leaves to the caller): drop leading and trailing whitespace. -/
def strTrim (s : String) : String :=
  ⟨((s.data.dropWhile Char.isWhitespace).reverse.dropWhile Char.isWhitespace).reverse⟩

/-- Python's `str.lower()` on the ASCII range the code compares against. -/
def strToLower (s : String) : String :=
  ⟨s.data.map Char.toLower⟩

/-- Python's `str.endswith` / the CSS `[attr$=value]` test. -/
def strEndsWith (s suf : String) : Bool :=
  suf.data.isSuffixOf s.data

/-- Scheme test helper: whether `pre` is a prefix of `s`. -/
def strStartsWith (s pre : String) : Bool :=
  pre.data.isPrefixOf s.data

/-- Split on whitespace, accumulating the current field in reverse. -/
def splitWsAux : List Char → List Char → List String
  | acc, [] => [⟨acc.reverse⟩]
  | acc, c :: rest =>
    if c.isWhitespace then ⟨acc.reverse⟩ :: splitWsAux [] rest
    else splitWsAux (c :: acc) rest

/-- Split a string at whitespace (how the HTML parser tokenizes the `class`
attribute into a class list). -/
def splitWs (s : String) : List String :=
  splitWsAux [] s.data

/-- Attribute lookup on an element (`tag['name']` / `tag.get('name')`). -/
def Node.getAttr : Node → String → Option String
  | .text _, _ => none
  | .elem _ attrs _, a => attrs.lookup a

/-- The tag name of an element node. -/
def Node.tag : Node → Option String
  | .text _ => none
  | .elem t _ _ => some t

/-- The children of a node. -/
def Node.children : Node → List Node
  | .text _ => []
  | .elem _ _ cs => cs

/-- The class list of an element: the `class` attribute split on whitespace,
as the HTML parser presents it to BeautifulSoup's `class_` matching. -/
def Node.classList (n : Node) : List String :=
  match n.getAttr "class" with
  | some c => (splitWs c).filter (fun s => s ≠ "")
  | none => []

/-- Whether an element carries a given CSS class (`class_='...'` / `.cls`). -/
def Node.hasClass (n : Node) (c : String) : Bool := n.classList.contains c

mutual

/-- All nodes strictly below `n`, in document (pre-)order: the iteration
order of BeautifulSoup's `descendants`, which backs `find` and `select`. -/
def Node.descendants : Node → List Node
  | .text _ => []
  | .elem _ _ cs => descendantsOfList cs

/-- Descendant lists of a forest, left to right. -/
def descendantsOfList : List Node → List Node
  | [] => []
  | n :: ns => n :: (Node.descendants n ++ descendantsOfList ns)

end

mutual

/-- All text-node contents in the subtree of `n`, in document order:
BeautifulSoup's `strings` generator (it recurses into nested elements). -/
def Node.strings : Node → List String
  | .text s => [s]
  | .elem _ _ cs => stringsOfList cs

/-- Text-node contents of a forest, left to right. -/
def stringsOfList : List Node → List String
  | [] => []
  | n :: ns => Node.strings n ++ stringsOfList ns

end

/-- `tag.find(...)`: the first descendant, in document order, satisfying the
predicate; `none` when there is no match. -/
def findFirst (p : Node → Bool) (n : Node) : Option Node :=
  (Node.descendants n).find? p

/-- `tag.select(...)` for a simple (single-element) selector: every
descendant satisfying the predicate, in document order. -/
def selectAll (p : Node → Bool) (n : Node) : List Node :=
  (Node.descendants n).filter p

/-- Predicate for `find('span', class_='text--300')`: the title-bearing span. -/
def isTitleSpan (n : Node) : Bool :=
  n.tag == some "span" && n.hasClass "text--300"

/-- Predicate for `find('a', href=True)`: an anchor carrying an `href`. -/
def isHrefLink (n : Node) : Bool :=
  n.tag == some "a" && (n.getAttr "href").isSome

/-- Predicate for `find('li', attrs={'data-ga-name': v})`: a category
section, identified by its discriminator value. -/
def isSectionLi (v : String) (n : Node) : Bool :=
  n.tag == some "li" && n.getAttr "data-ga-name" == some v

/-- Predicate for the fallback selector
`a.product-help-and-download--download-link[href$=".pdf"]`. -/
def isFallbackLink (n : Node) : Bool :=
  n.tag == some "a" && n.hasClass "product-help-and-download--download-link" &&
    (match n.getAttr "href" with
     | some h => strEndsWith h ".pdf"
     | none => false)

/-- Predicate for the `table.unstriped` part of the row selector. -/
def isUnstripedTable (n : Node) : Bool :=
  n.tag == some "table" && n.hasClass "unstriped"

mutual

/-- Collector behind `section_li.select("table.unstriped tbody tr")`: walks
the subtree tracking whether an ancestor is a `table.unstriped` and whether,
below such a table, an ancestor is a `tbody`; every `tr` seen under both is a
row, collected in document order. -/
def trRowsNode (inTable inTbody : Bool) (n : Node) : List Node :=
  match n with
  | .text _ => []
  | .elem t a cs =>
    let here := if t == "tr" && inTbody then [Node.elem t a cs] else []
    let inTable2 := inTable || isUnstripedTable (Node.elem t a cs)
    let inTbody2 := inTbody || (inTable && t == "tbody")
    here ++ trRowsList inTable2 inTbody2 cs

/-- Row collection over a forest, left to right. -/
def trRowsList (inTable inTbody : Bool) : List Node → List Node
  | [] => []
  | n :: ns => trRowsNode inTable inTbody n ++ trRowsList inTable inTbody ns

end

/-- The rows `extract_docs` iterates over:
`section_li.select("table.unstriped tbody tr")`. -/
def selectRows (sectionLi : Node) : List Node :=
  trRowsList false false sectionLi.children

/-- Contiguous-sublist test on character lists. -/
def charsContain : List Char → List Char → Bool
  | pat, [] => pat.isEmpty
  | pat, c :: rest => pat.isPrefixOf (c :: rest) || charsContain pat rest

/-- Python's `pat in s` on strings: substring containment. -/
def strContains (s pat : String) : Bool :=
  charsContain pat.toList s.toList

/-- One emitted record, as `extract_docs` and the fallback loops build it:
the dict `{"title": ..., "url": ...}` (the title is `None` on the fallback
path; there is no date key). -/
structure RawDoc where
  title : Option String
  url : String
deriving Repr, DecidableEq

/-- The body of the row loop in `extract_docs`: find the title span (skip
the row if absent), join every string in its subtree and strip it, find the
first `href`-bearing anchor (skip the row if absent), and emit the record. -/
def rowDoc (tr : Node) : Option RawDoc :=
  match findFirst isTitleSpan tr with
  | none => none
  | some span =>
    match findFirst isHrefLink tr with
    | none => none
    | some a =>
      match a.getAttr "href" with
      | none => none
      | some href => some { title := some (strTrim (String.join span.strings)), url := href }

/-- The accumulating row loop of `extract_docs` (`docs.append(...)`). -/
def extractLoop (docs : List RawDoc) : List Node → List RawDoc
  | [] => docs
  | tr :: rest =>
    match rowDoc tr with
    | none => extractLoop docs rest
    | some d => extractLoop (docs ++ [d]) rest

/-- `extract_docs(section_li)`. -/
def extract_docs (sectionLi : Node) : List RawDoc :=
  extractLoop [] (selectRows sectionLi)

/-- Tier 1 for one category: locate the section `li` by its discriminator
and run `extract_docs`; an absent section yields the empty list. -/
def structuredDocs (soup : Node) (discriminator : String) : List RawDoc :=
  match findFirst (isSectionLi discriminator) soup with
  | some sec => extract_docs sec
  | none => []

/-- Fallback filter for manuals:
`'manual' in a.get('data-ga-action', '').lower()`. -/
def manualCond (a : Node) : Bool :=
  strContains (strToLower ((a.getAttr "data-ga-action").getD "")) "manual"

/-- Fallback filter for datasheets:
`'ficha-tecnica' in a.get('data-ga-action', '').lower() or 'datasheet' in a['href'].lower()`. -/
def datasheetCond (a : Node) : Bool :=
  strContains (strToLower ((a.getAttr "data-ga-action").getD "")) "ficha-tecnica" ||
    strContains (strToLower ((a.getAttr "href").getD "")) "datasheet"

/-- The accumulating fallback loop (`...append({"title": None, "url": a['href']})`). -/
def fallbackLoop (cond : Node → Bool) (docs : List RawDoc) : List Node → List RawDoc
  | [] => docs
  | a :: rest =>
    if cond a then
      fallbackLoop cond (docs ++ [{ title := none, url := (a.getAttr "href").getD "" }]) rest
    else
      fallbackLoop cond docs rest

/-- Tier 2 for one category: scan the whole page for fallback links and keep
those passing the category's filter. -/
def fallbackDocs (soup : Node) (cond : Node → Bool) : List RawDoc :=
  fallbackLoop cond [] (selectAll isFallbackLink soup)

/-- The `manuals` list right before the response is built: structured
extraction, replaced by the fallback only when it produced nothing
(`if not manuals:`). -/
def manualsOf (soup : Node) : List RawDoc :=
  let manuals := structuredDocs soup "manuais"
  if manuals.isEmpty then fallbackDocs soup manualCond else manuals

/-- The `datasheets` list right before the response is built. -/
def datasheetsOf (soup : Node) : List RawDoc :=
  let datasheets := structuredDocs soup "ficha-tecnica"
  if datasheets.isEmpty then fallbackDocs soup datasheetCond else datasheets

/-- Model of pydantic's `HttpUrl` at its interface boundary (the declared
type of `Document.url`): it accepts only absolute URLs with an `http` or
`https` scheme; in particular every site-relative reference is rejected. -/
def isHttpUrl (s : String) : Bool :=
  strStartsWith s "http://" || strStartsWith s "https://"

/-- The serialized `ScrapeResponse`: each category is a non-empty list or
`None` (`manuals or None`). -/
structure ScrapeResponse where
  manuals : Option (List RawDoc)
  datasheets : Option (List RawDoc)
deriving Repr, DecidableEq

/-- How a `/scrape` request can fail: the explicit
`HTTPException(status_code=400, detail=...)` on a fetch failure, or a
pydantic validation error raised while building the response model. -/
inductive ScrapeError : Type where
  | httpException : Nat → String → ScrapeError
  | validationError : String → ScrapeError
deriving Repr, DecidableEq

/-- The first record whose URL fails `HttpUrl` validation, if any. -/
def firstInvalidUrl (docs : List RawDoc) : Option RawDoc :=
  docs.find? (fun d => !isHttpUrl d.url)

/-- Building `ScrapeResponse(manuals=manuals or None, datasheets=datasheets or None)`:
pydantic validates every record's URL against `HttpUrl`, raising on the
first invalid one; empty lists are passed as `None`. -/
def mkScrapeResponse (manuals datasheets : List RawDoc) : Except ScrapeError ScrapeResponse :=
  match firstInvalidUrl manuals with
  | some d => .error (.validationError d.url)
  | none =>
    match firstInvalidUrl datasheets with
    | some d => .error (.validationError d.url)
    | none =>
      .ok { manuals := if manuals.isEmpty then none else some manuals
            datasheets := if datasheets.isEmpty then none else some datasheets }

/-- The `/scrape` handler after URL validation of the request body: the
fetch either fails with the transport error's text (mapped to the HTTP 400
`HTTPException` whose detail interpolates it) or delivers the parsed page,
on which both categories are extracted and the response model is built. -/
def scrape_pdfs (fetchResult : Except String Node) : Except ScrapeError ScrapeResponse :=
  match fetchResult with
  | .error e => .error (.httpException 400 ("Erro ao buscar a página: " ++ e))
  | .ok soup => mkScrapeResponse (manualsOf soup) (datasheetsOf soup)

/-! ### Concrete pages used to exercise the model -/

/-- A nested date fragment, as structured sections carry it inside the title
span: `<span class="download-info">12/2023</span>`. -/
def dateSpan : Node := .elem "span" [("class", "download-info")] [.text "12/2023"]

/-- Title span of scenario B: text plus a nested date fragment. -/
def titleSpanB : Node :=
  .elem "span" [("class", "text--300")] [.text "Manual do Produto X ", dateSpan]

/-- Download link of scenario B (absolute URL). -/
def linkB : Node :=
  .elem "a" [("href", "https://backend.intelbras.com/files/manual-x.pdf")] [.text "Download"]

/-- One table row holding the scenario-B title span and link. -/
def rowB : Node := .elem "tr" [] [.elem "td" [] [titleSpanB], .elem "td" [] [linkB]]

/-- The structured manuals section of scenario B. -/
def sectionManuaisB : Node :=
  .elem "li" [("data-ga-name", "manuais")]
    [.elem "table" [("class", "unstriped")] [.elem "tbody" [] [rowB]]]

/-- A second structured page, same shape as scenario B with different text:
title "Guia de Instalação ", nested date "05/2024", absolute link. -/
def pageB2 : Node :=
  .elem "html" [] [.elem "body" [] [.elem "ul" []
    [.elem "li" [("data-ga-name", "manuais")]
      [.elem "table" [("class", "unstriped")] [.elem "tbody" []
        [.elem "tr" []
          [.elem "td" [] [.elem "span" [("class", "text--300")]
            [.text "Guia de Instalação ",
             .elem "span" [("class", "download-info")] [.text "05/2024"]]],
           .elem "td" [] [.elem "a" [("href", "https://backend.intelbras.com/files/guia.pdf")]
             [.text "Download"]]]]]]]]]

/-- Scenario A: one structured manuals row, no nested date, and the
site-relative link `/files/manual-x.pdf` exactly as the spec's example. -/
def pageA : Node :=
  .elem "html" [] [.elem "body" [] [.elem "ul" []
    [.elem "li" [("data-ga-name", "manuais")]
      [.elem "table" [("class", "unstriped")] [.elem "tbody" []
        [.elem "tr" []
          [.elem "td" [] [.elem "span" [("class", "text--300")] [.text "Manual do Produto X"]],
           .elem "td" [] [.elem "a" [("href", "/files/manual-x.pdf")] [.text "Download"]]]]]]]]]

/-- A page with no structured sections whose only content is a fallback
link tagged as a manual. -/
def pageFb : Node :=
  .elem "html" [] [.elem "body" []
    [.elem "a" [("class", "product-help-and-download--download-link"),
                ("href", "https://backend.intelbras.com/files/manual-z.pdf"),
                ("data-ga-action", "download-manual-z")] [.text "Baixar"]]]

/-- A page with nothing at all that the extractor looks for. -/
def pagePlain : Node := .elem "html" [] [.elem "body" [] [.text "nada aqui"]]

/-- Another empty page, used to exercise the fetch-success path. -/
def pageBare : Node := .elem "div" [] [.text "sem conteúdo"]

/-- A structured section whose single row has an all-whitespace title span
and a valid link: the joined, stripped title is the empty string. -/
def sectionWs : Node :=
  .elem "li" [("data-ga-name", "manuais")]
    [.elem "table" [("class", "unstriped")] [.elem "tbody" []
      [.elem "tr" []
        [.elem "td" [] [.elem "span" [("class", "text--300")] [.text "   "]],
         .elem "td" [] [.elem "a" [("href", "https://backend.intelbras.com/files/w.pdf")]
           [.text "Download"]]]]]]

/-- A structured section with a good row followed by a linkless row and then
another good row, used to exercise row skipping. -/
def rowGood1 : Node :=
  .elem "tr" []
    [.elem "td" [] [.elem "span" [("class", "text--300")] [.text "Manual A"]],
     .elem "td" [] [.elem "a" [("href", "https://backend.intelbras.com/files/a.pdf")] [.text "A"]]]

/-- A row with a title span but no link at all. -/
def rowNoLink : Node :=
  .elem "tr" []
    [.elem "td" [] [.elem "span" [("class", "text--300")] [.text "Manual órfão"]],
     .elem "td" [] [.text "sem link"]]

/-- The second good row. -/
def rowGood2 : Node :=
  .elem "tr" []
    [.elem "td" [] [.elem "span" [("class", "text--300")] [.text "Manual B"]],
     .elem "td" [] [.elem "a" [("href", "https://backend.intelbras.com/files/b.pdf")] [.text "B"]]]

/-- The section containing the three rows above. -/
def sectionSkip : Node :=
  .elem "li" [("data-ga-name", "manuais")]
    [.elem "table" [("class", "unstriped")] [.elem "tbody" [] [rowGood1, rowNoLink, rowGood2]]]

/-! ### Helper lemmas about the loops and string model -/

/-- The row loop of `extract_docs` is append-accumulating `filterMap`. -/
theorem extractLoop_eq (docs : List RawDoc) (trs : List Node) :
    extractLoop docs trs = docs ++ trs.filterMap rowDoc := by
  induction trs generalizing docs with
  | nil => simp [extractLoop]
  | cons tr rest ih =>
    cases h : rowDoc tr with
    | none => simp [extractLoop, h, ih]
    | some d => simp [extractLoop, h, ih]

/-- The fallback loop is append-accumulating filter-then-map. -/
theorem fallbackLoop_eq (cond : Node → Bool) (docs : List RawDoc) (links : List Node) :
    fallbackLoop cond docs links =
      docs ++ (links.filter cond).map
        (fun a => { title := none, url := (a.getAttr "href").getD "" }) := by
  induction links generalizing docs with
  | nil => simp [fallbackLoop]
  | cons a rest ih =>
    cases h : cond a with
    | false => simp [fallbackLoop, h, ih]
    | true => simp [fallbackLoop, h, ih]

/-- `charsContain` decides contiguous-sublist containment. -/
theorem charsContain_iff (pat s : List Char) :
    charsContain pat s = true ↔ pat <:+: s := by
  induction s with
  | nil =>
    simp [charsContain, List.isEmpty_iff]
  | cons c rest ih =>
    simp [charsContain, List.infix_cons_iff, ih]

/-- The character data of an appended string. -/
theorem data_append (s t : String) : (s ++ t).data = s.data ++ t.data := by
  cases s
  cases t
  rfl

/-- A string contains every suffix of itself; in particular the interpolated
error detail contains the underlying error text. -/
theorem strContains_append (p e : String) : strContains (p ++ e) e = true := by
  rw [strContains, charsContain_iff]
  show e.data <:+: (p ++ e).data
  rw [data_append]
  exact (List.suffix_append p.data e.data).isInfix

/-- Shape of a successfully built response: each category field is `none`
exactly when its list was empty, and is never `some []`. -/
theorem mkScrapeResponse_ok (M D : List RawDoc) (resp : ScrapeResponse)
    (h : mkScrapeResponse M D = .ok resp) :
    (resp.manuals = none ↔ M = []) ∧ (∀ l, resp.manuals = some l → l ≠ []) ∧
    (resp.datasheets = none ↔ D = []) ∧ (∀ l, resp.datasheets = some l → l ≠ []) := by
  simp only [mkScrapeResponse] at h
  cases hm : firstInvalidUrl M with
  | some d => rw [hm] at h; exact absurd h (by simp)
  | none =>
    rw [hm] at h
    cases hd : firstInvalidUrl D with
    | some d => rw [hd] at h; exact absurd h (by simp)
    | none =>
      rw [hd] at h
      have h2 := Except.ok.inj h
      subst h2
      refine ⟨?_, ?_, ?_, ?_⟩
      · by_cases hM : M = [] <;> simp [hM]
      · intro l hl
        by_cases hM : M = [] <;> simp [hM] at hl
        intro hnil
        exact hM (hl ▸ hnil)
      · by_cases hD : D = [] <;> simp [hD]
      · intro l hl
        by_cases hD : D = [] <;> simp [hD] at hl
        intro hnil
        exact hD (hl ▸ hnil)

/-! ### The claims -/

/-- C1: the claim says every emitted row title equals the title span's text
with any nested date fragment's text excluded, then trimmed. The code joins
every string in the span's subtree (`''.join([c for c in span.strings])`),
so the nested date fragment's text is kept: at a row whose title span holds
"Manual do Produto X " plus a nested `download-info` fragment "12/2023",
the emitted title is "Manual do Produto X 12/2023", not
"Manual do Produto X". This contradicts the code's own comment
("remove span de data"). -/
theorem extract_docs_title_keeps_nested_date_text :
    extract_docs sectionManuaisB =
      [{ title := some "Manual do Produto X 12/2023",
         url := "https://backend.intelbras.com/files/manual-x.pdf" }] ∧
    strTrim (String.join titleSpanB.strings) ≠ "Manual do Produto X" :=
  ⟨by decide, by decide⟩

/-- C2: the claim says a structured row with a nested date fragment yields a
`Document` whose date field holds the fragment's trimmed text. The code's
`Document` model has only `title` and `url` — no date field exists — so at a
page whose title span carries the nested fragment "05/2024" the response
holds a single record with no date anywhere; the fragment's text instead
leaks into the title. -/
theorem scrape_response_carries_no_date :
    scrape_pdfs (.ok pageB2) =
      .ok { manuals := some [{ title := some "Guia de Instalação 05/2024",
                               url := "https://backend.intelbras.com/files/guia.pdf" }],
            datasheets := none } := by
  rfl

/-- C3: the claim says the emitted url is the link's reference exactly as it
appeared (absolute or site-relative) and that the operation succeeds in
returning it. Extraction does keep the reference verbatim, but the response
model declares `url : HttpUrl`, which rejects site-relative references: on
the spec's own scenario-A page (`href="/files/manual-x.pdf"`) the handler
raises a validation error instead of returning the document. -/
theorem relative_url_fails_response_validation :
    manualsOf pageA = [{ title := some "Manual do Produto X", url := "/files/manual-x.pdf" }] ∧
    scrape_pdfs (.ok pageA) = .error (.validationError "/files/manual-x.pdf") :=
  ⟨by decide, by rfl⟩

/-- C4: per category, the fallback is consulted exactly when structured
extraction produced zero documents: a non-empty structured result is passed
through untouched, and when it is empty the category's list is exactly the
fallback scan's output, every record of which has an absent title (and the
record carries no date field at all, cf. C2). -/
theorem fallback_runs_iff_structured_empty (soup : Node) :
    (structuredDocs soup "manuais" ≠ [] →
        manualsOf soup = structuredDocs soup "manuais") ∧
    (structuredDocs soup "manuais" = [] →
        manualsOf soup = fallbackDocs soup manualCond ∧
          ∀ d ∈ manualsOf soup, d.title = none) ∧
    (structuredDocs soup "ficha-tecnica" ≠ [] →
        datasheetsOf soup = structuredDocs soup "ficha-tecnica") ∧
    (structuredDocs soup "ficha-tecnica" = [] →
        datasheetsOf soup = fallbackDocs soup datasheetCond ∧
          ∀ d ∈ datasheetsOf soup, d.title = none) := by
  refine ⟨fun h => ?_, fun h => ?_, fun h => ?_, fun h => ?_⟩
  · simp [manualsOf, List.isEmpty_iff, h]
  · have hm : manualsOf soup = fallbackDocs soup manualCond := by
      simp [manualsOf, h]
    refine ⟨hm, ?_⟩
    intro d hd
    rw [hm] at hd
    simp only [fallbackDocs, fallbackLoop_eq, List.nil_append, List.mem_map] at hd
    obtain ⟨a, -, rfl⟩ := hd
    rfl
  · simp [datasheetsOf, List.isEmpty_iff, h]
  · have hm : datasheetsOf soup = fallbackDocs soup datasheetCond := by
      simp [datasheetsOf, h]
    refine ⟨hm, ?_⟩
    intro d hd
    rw [hm] at hd
    simp only [fallbackDocs, fallbackLoop_eq, List.nil_append, List.mem_map] at hd
    obtain ⟨a, -, rfl⟩ := hd
    rfl

/-- C4 witness: on a page with no structured sections and one manual-tagged
fallback link, the manuals list is exactly the fallback's output. -/
theorem fallback_runs_iff_structured_empty_witness :
    manualsOf pageFb = fallbackDocs pageFb manualCond ∧
      ∀ d ∈ manualsOf pageFb, d.title = none :=
  (fallback_runs_iff_structured_empty pageFb).2.1 (by rfl)

/-- C5: in every successful response each category is `none` exactly when
the two-tier extraction for it produced the empty list — so a present
section with zero surviving rows and an absent section are represented
identically — and a category is never serialized as `some []`. -/
theorem response_collections_never_empty_list (soup : Node) (resp : ScrapeResponse)
    (h : scrape_pdfs (.ok soup) = .ok resp) :
    (resp.manuals = none ↔ manualsOf soup = []) ∧
    (∀ l, resp.manuals = some l → l ≠ []) ∧
    (resp.datasheets = none ↔ datasheetsOf soup = []) ∧
    (∀ l, resp.datasheets = some l → l ≠ []) :=
  mkScrapeResponse_ok (manualsOf soup) (datasheetsOf soup) resp h

/-- C5 witness: the empty page produces the all-absent response, whose
fields satisfy the characterization. -/
theorem response_collections_never_empty_list_witness :
    (({ manuals := none, datasheets := none } : ScrapeResponse).manuals = none ↔
        manualsOf pagePlain = []) ∧
    (∀ l, ({ manuals := none, datasheets := none } : ScrapeResponse).manuals = some l → l ≠ []) ∧
    (({ manuals := none, datasheets := none } : ScrapeResponse).datasheets = none ↔
        datasheetsOf pagePlain = []) ∧
    (∀ l, ({ manuals := none, datasheets := none } : ScrapeResponse).datasheets = some l → l ≠ []) :=
  response_collections_never_empty_list pagePlain { manuals := none, datasheets := none } (by rfl)

/-- C6: the fallback for either category is exactly the page-wide list of
candidate links (anchor with the download-link class and an `href` ending
in ".pdf", in document order), filtered for manuals by «the lower-cased
`data-ga-action` contains "manual"» and for datasheets by «that attribute
contains "ficha-tecnica" OR the lower-cased `href` contains "datasheet"»,
each match emitted as a title-less record holding the link's `href`. -/
theorem fallback_inclusion_conditions (soup : Node) :
    fallbackDocs soup manualCond =
      ((selectAll isFallbackLink soup).filter
          (fun a => strContains (strToLower ((a.getAttr "data-ga-action").getD "")) "manual")).map
        (fun a => { title := none, url := (a.getAttr "href").getD "" }) ∧
    fallbackDocs soup datasheetCond =
      ((selectAll isFallbackLink soup).filter
          (fun a =>
            strContains (strToLower ((a.getAttr "data-ga-action").getD "")) "ficha-tecnica" ||
              strContains (strToLower ((a.getAttr "href").getD "")) "datasheet")).map
        (fun a => { title := none, url := (a.getAttr "href").getD "" }) := by
  constructor
  · simp only [fallbackDocs, fallbackLoop_eq, List.nil_append]
    rfl
  · simp only [fallbackDocs, fallbackLoop_eq, List.nil_append]
    rfl

/-- C7: a failed fetch is mapped to the HTTP 400 `HTTPException` whose
detail interpolates — and therefore contains — the underlying error's text,
with no extraction attempted; after a successful fetch the extraction is a
total function, and a page with no sections, no rows and no candidate links
yields the clean all-absent response rather than any error. -/
theorem fetch_error_maps_to_client_error (e : String) (soup : Node)
    (h1 : findFirst (isSectionLi "manuais") soup = none)
    (h2 : findFirst (isSectionLi "ficha-tecnica") soup = none)
    (h3 : selectAll isFallbackLink soup = []) :
    scrape_pdfs (.error e) =
      .error (.httpException 400 ("Erro ao buscar a página: " ++ e)) ∧
    strContains ("Erro ao buscar a página: " ++ e) e = true ∧
    scrape_pdfs (.ok soup) = .ok { manuals := none, datasheets := none } := by
  refine ⟨rfl, strContains_append _ _, ?_⟩
  have hm : manualsOf soup = [] := by
    simp [manualsOf, structuredDocs, h1, fallbackDocs, h3, fallbackLoop]
  have hd : datasheetsOf soup = [] := by
    simp [datasheetsOf, structuredDocs, h2, fallbackDocs, h3, fallbackLoop]
  show mkScrapeResponse (manualsOf soup) (datasheetsOf soup) = _
  rw [hm, hd]
  rfl

/-- C7 witness: concrete timeout error and a concrete empty page. -/
theorem fetch_error_maps_to_client_error_witness :
    scrape_pdfs (.error "timeout") =
      .error (.httpException 400 "Erro ao buscar a página: timeout") ∧
    strContains "Erro ao buscar a página: timeout" "timeout" = true ∧
    scrape_pdfs (.ok pageBare) = .ok { manuals := none, datasheets := none } :=
  fetch_error_maps_to_client_error "timeout" pageBare rfl rfl rfl

/-- C8: a row with no `href`-bearing link contributes nothing — its
`rowDoc` is `none` and deleting it from the row list leaves the loop's
output unchanged, so later rows are unaffected — and every emitted record's
url is the `href` of a link that exists in its row. -/
theorem linkless_row_contributes_nothing (li tr : Node) (xs ys : List Node)
    (hnl : findFirst isHrefLink tr = none) :
    rowDoc tr = none ∧
    extractLoop [] (xs ++ tr :: ys) = extractLoop [] (xs ++ ys) ∧
    ∀ d ∈ extract_docs li, ∃ r ∈ selectRows li, ∃ a,
      findFirst isHrefLink r = some a ∧ a.getAttr "href" = some d.url := by
  have hrd : rowDoc tr = none := by
    unfold rowDoc
    cases hsp : findFirst isTitleSpan tr with
    | none => rfl
    | some span => rw [hnl]
  refine ⟨hrd, ?_, ?_⟩
  · simp [extractLoop_eq, List.filterMap_append, List.filterMap_cons, hrd]
  · intro d hd
    simp only [extract_docs, extractLoop_eq, List.nil_append] at hd
    obtain ⟨r, hr, hrd2⟩ := List.mem_filterMap.mp hd
    refine ⟨r, hr, ?_⟩
    unfold rowDoc at hrd2
    cases hsp : findFirst isTitleSpan r with
    | none => rw [hsp] at hrd2; simp at hrd2
    | some span =>
      rw [hsp] at hrd2
      cases hlk : findFirst isHrefLink r with
      | none => rw [hlk] at hrd2; simp at hrd2
      | some a =>
        rw [hlk] at hrd2
        dsimp only at hrd2
        cases hat : a.getAttr "href" with
        | none => rw [hat] at hrd2; simp at hrd2
        | some href =>
          rw [hat] at hrd2
          obtain rfl := Option.some.inj hrd2
          exact ⟨a, rfl, by rw [hat]⟩

/-- C8 witness: in the section whose middle row has no link, that row's
`rowDoc` is `none`, removing it changes nothing, and both emitted records
draw their urls from links present in their rows. -/
theorem linkless_row_contributes_nothing_witness :
    rowDoc rowNoLink = none ∧
    extractLoop [] ([rowGood1] ++ rowNoLink :: [rowGood2]) =
      extractLoop [] ([rowGood1] ++ [rowGood2]) ∧
    ∀ d ∈ extract_docs sectionSkip, ∃ r ∈ selectRows sectionSkip, ∃ a,
      findFirst isHrefLink r = some a ∧ a.getAttr "href" = some d.url :=
  linkless_row_contributes_nothing sectionSkip rowNoLink [rowGood1] [rowGood2] (by rfl)

/-- C9: structured output is the row list mapped through `rowDoc` with
skips — no sorting, deduplication or merging — and the fallback output is
the candidate list filtered and mapped in place; duplicating source rows or
links duplicates the output accordingly. -/
theorem output_preserves_source_order_and_duplicates (li : Node) (trs links : List Node)
    (cond : Node → Bool) :
    extract_docs li = (selectRows li).filterMap rowDoc ∧
    extractLoop [] (trs ++ trs) = extractLoop [] trs ++ extractLoop [] trs ∧
    fallbackDocs li cond =
      ((selectAll isFallbackLink li).filter cond).map
        (fun a => { title := none, url := (a.getAttr "href").getD "" }) ∧
    fallbackLoop cond [] (links ++ links) =
      fallbackLoop cond [] links ++ fallbackLoop cond [] links := by
  refine ⟨?_, ?_, ?_, ?_⟩
  · simp [extract_docs, extractLoop_eq]
  · simp [extractLoop_eq, List.filterMap_append]
  · simp [fallbackDocs, fallbackLoop_eq]
  · simp [fallbackLoop_eq, List.filter_append]

/-- C10: every record emitted by structured extraction carries `some` title
(the empty string when the span's text is all whitespace, as the concrete
all-whitespace section shows), while every fallback record's title is
`none` — so title presence alone identifies the producing tier. -/
theorem structured_title_present_fallback_title_absent (li soup : Node) :
    (∀ d ∈ extract_docs li, ∃ s, d.title = some s) ∧
    (∀ d ∈ fallbackDocs soup manualCond, d.title = none) ∧
    (∀ d ∈ fallbackDocs soup datasheetCond, d.title = none) ∧
    extract_docs sectionWs =
      [{ title := some "", url := "https://backend.intelbras.com/files/w.pdf" }] := by
  refine ⟨?_, ?_, ?_, by rfl⟩
  · intro d hd
    simp only [extract_docs, extractLoop_eq, List.nil_append] at hd
    obtain ⟨r, hr, hrd⟩ := List.mem_filterMap.mp hd
    unfold rowDoc at hrd
    cases hsp : findFirst isTitleSpan r with
    | none => rw [hsp] at hrd; simp at hrd
    | some span =>
      rw [hsp] at hrd
      cases hlk : findFirst isHrefLink r with
      | none => rw [hlk] at hrd; simp at hrd
      | some a =>
        rw [hlk] at hrd
        dsimp only at hrd
        cases hat : a.getAttr "href" with
        | none => rw [hat] at hrd; simp at hrd
        | some href =>
          rw [hat] at hrd
          obtain rfl := Option.some.inj hrd
          exact ⟨_, rfl⟩
  · intro d hd
    simp only [fallbackDocs, fallbackLoop_eq, List.nil_append, List.mem_map] at hd
    obtain ⟨a, -, rfl⟩ := hd
    rfl
  · intro d hd
    simp only [fallbackDocs, fallbackLoop_eq, List.nil_append, List.mem_map] at hd
    obtain ⟨a, -, rfl⟩ := hd
    rfl

/-- C10 witness: a concrete structured record has a present title. -/
theorem structured_title_present_fallback_title_absent_witness :
    ∃ s, ({ title := some "Manual A",
            url := "https://backend.intelbras.com/files/a.pdf" } : RawDoc).title = some s :=
  (structured_title_present_fallback_title_absent sectionSkip pagePlain).1
    { title := some "Manual A", url := "https://backend.intelbras.com/files/a.pdf" } (by decide)

end ConsultaDocumentos
